import Mathlib

/-!
Shallow embedding of the Financial Hub Platform batch scripts, together with
theorems checking the natural-language specification against the code.

Numeric columns are modelled over the rationals; a pandas NaN / missing value
is modelled as the `none` case of `Option`.  Every definition in the first
part of the file is translated from a named place in the Python source, cited
in its doc comment.
-/

/- ===== Generic string ordering, as Python sorts strings ===== -/

/-- Lexicographic comparison of code-point lists, the order Python uses to
sort strings (`sorted` on `str` compares code points left to right). -/
def lexLe : List Nat → List Nat → Bool
  | [], _ => true
  | _ :: _, [] => false
  | a :: as, b :: bs => if a < b then true else if b < a then false else lexLe as bs

/-- Code points of a string. -/
def strCodes (s : String) : List Nat := s.data.map Char.toNat

/-- Python string comparison, used by `sorted` on CPT code strings. -/
def strLe (s t : String) : Bool := lexLe (strCodes s) (strCodes t)

/-- Python `sorted(set(l))` for a list of strings: the distinct elements in
ascending lexicographic order.  Used by the key builders of
`invoice_benchmark_code_v10_updated.py` (Step 3) and
`invoice_benchmark_code_v6_updated.py` (Step 2). -/
def sortedUnique (l : List String) : List String :=
  List.insertionSort (fun a b => strLe a b = true) l.dedup

/-- A single-quote character, written by code point. -/
def pyQuote : String := "\x27"

/-- Python `str()` rendering of a list of strings, e.g. a two-element list
prints as an open bracket, each element in single quotes, separated by a
comma and a space.  Faithful for strings that contain no quote or backslash
characters, which CPT codes (digit strings) never do.  This is the
`CPT_List_Str` rendering of `invoice_benchmark_code_v10_updated.py` line 28. -/
def pyStrList (l : List String) : String :=
  "[" ++ String.intercalate ", " (l.map (fun s => pyQuote ++ s ++ pyQuote)) ++ "]"

/- ===== Key builder (invoice_benchmark_code_v10_updated.py, Step 3) ===== -/

/-- A normalized detail row: the key columns of
`invoice_benchmark_code_v10_updated.py` after Step 1 stringified and stripped
them (`Invoice_Number`, `Payer`, `Group_EM`, `Group_EM2`, `Charge CPT Code`). -/
structure DetailRow where
  invoiceNumber : String
  payer : String
  groupEM : String
  groupEM2 : String
  cptCode : String
  deriving DecidableEq

/-- All CPT codes charged on one invoice: the rows of the table whose
`Invoice_Number` equals `inv`, in load order.  This is the per-invoice
grouping pass `df_inv.groupby("Invoice_Number")["Charge CPT Code"]`. -/
def invoiceCpts (t : List DetailRow) (inv : String) : List String :=
  (t.filter (fun r => r.invoiceNumber = inv)).map (fun r => r.cptCode)

/-- The `CPT_List` column: `sorted(set(x))` over the codes of the invoice
(`invoice_benchmark_code_v10_updated.py` line 26). -/
def CPT_List (t : List DetailRow) (inv : String) : List String :=
  sortedUnique (invoiceCpts t inv)

/-- The `CPT_List_Str` column: the Python string form of `CPT_List`
(`invoice_benchmark_code_v10_updated.py` line 28). -/
def CPT_List_Str (t : List DetailRow) (inv : String) : String :=
  pyStrList (CPT_List t inv)

/-- The `Benchmark_Key` column of `invoice_benchmark_code_v10_updated.py`
line 32: the pipe-join of the key parts `Payer`, `Group_EM`, `Group_EM2` and
`CPT_List_Str`, where `CPT_List_Str` was merged onto the row by its
`Invoice_Number`. -/
def Benchmark_Key (t : List DetailRow) (r : DetailRow) : String :=
  String.intercalate "|" [r.payer, r.groupEM, r.groupEM2, CPT_List_Str t r.invoiceNumber]

/- ===== Aggregator (revenue-analysis/scripts/CPT tracing code.py, roll-up A) ===== -/

/-- One row of the granular weekly file consumed by the CPT tracing script,
restricted to the columns its by-key roll-up reads.  `actualRate` and
`expectedRate` are `Option` because `Actual_Rate_per_Visit` and
`Expected_Amount_85_EM_invoice_level` can be NaN. -/
structure GranularRow where
  benchmarkKey : String
  visitCount : ℚ
  paymentAmount : ℚ
  actualRate : Option ℚ
  expectedRate : Option ℚ
  deriving DecidableEq

/-- The rows of one `Benchmark_Key` group, as produced by
`df.groupby(["Benchmark_Key"])`. -/
def groupRowsByKey (t : List GranularRow) (k : String) : List GranularRow :=
  t.filter (fun r => r.benchmarkKey = k)

/-- The `Total_Visits` aggregate: the sum of `Visit_Count` over the group
(`CPT tracing code.py`, by-key roll-up). -/
def Total_Visits (g : List GranularRow) : ℚ :=
  (g.map (fun r => r.visitCount)).sum

/-- The `_w_actual` numerator: `np.nansum(rate * visits)` over the group.  A
missing (NaN) rate contributes nothing to the sum, which `Option.getD 0`
captures. -/
def wActualNum (g : List GranularRow) : ℚ :=
  (g.map (fun r => (r.actualRate.getD 0) * r.visitCount)).sum

/-- The `_w_expected` numerator, same nansum over the expected rate. -/
def wExpectedNum (g : List GranularRow) : ℚ :=
  (g.map (fun r => (r.expectedRate.getD 0) * r.visitCount)).sum

/-- The `Weighted_Actual_Rate_per_Visit` output: NaN when `Total_Visits` is
zero, otherwise the numerator divided by `Total_Visits`
(`CPT tracing code.py` lines 104 to 106). -/
def Weighted_Actual_Rate_per_Visit (g : List GranularRow) : Option ℚ :=
  if Total_Visits g = 0 then none else some (wActualNum g / Total_Visits g)

/-- The `Weighted_Expected_Rate_per_Visit` output, same guard
(`CPT tracing code.py` lines 107 to 109). -/
def Weighted_Expected_Rate_per_Visit (g : List GranularRow) : Option ℚ :=
  if Total_Visits g = 0 then none else some (wExpectedNum g / Total_Visits g)

/- ===== Variance engine (weekly_model_generator_v5.py Step 5, invoice_benchmark_code_v10_updated.py Step 6) ===== -/

/-- The `Revenue_Variance` column of `weekly_model_generator_v5.py` line 72:
payment minus expected payment. -/
def Revenue_Variance (payment expectedPayment : ℚ) : ℚ :=
  payment - expectedPayment

/-- The `Revenue_Variance_Pct` column of `weekly_model_generator_v5.py`
lines 73 to 77: NaN when the expected payment is zero, otherwise the dollar
variance divided by the expected payment. -/
def Revenue_Variance_Pct (payment expectedPayment : ℚ) : Option ℚ :=
  if expectedPayment = 0 then none
  else some (Revenue_Variance payment expectedPayment / expectedPayment)

/-- The `Invoice_Payment_Diff_vs_Benchmark` column of
`invoice_benchmark_code_v10_updated.py` line 80. -/
def Invoice_Payment_Diff_vs_Benchmark (payment benchmarkPayment : ℚ) : ℚ :=
  payment - benchmarkPayment

/-- The `Invoice_Payment_Pct_Diff_vs_Benchmark` column of
`invoice_benchmark_code_v10_updated.py` lines 81 to 85, with the same
zero-denominator guard. -/
def Invoice_Payment_Pct_Diff_vs_Benchmark (payment benchmarkPayment : ℚ) : Option ℚ :=
  if benchmarkPayment = 0 then none
  else some (Invoice_Payment_Diff_vs_Benchmark payment benchmarkPayment / benchmarkPayment)

/- ===== Weekly aggregation (weekly_model_generator_v5.py Step 2) ===== -/

/-- One row of the invoice-level index as read by
`weekly_model_generator_v5.py`, restricted to the grouping columns and the
invoice number. -/
structure InvoiceRow where
  year : Int
  week : Int
  payer : String
  groupEM : String
  groupEM2 : String
  benchmarkKey : String
  invoiceNumber : String
  deriving DecidableEq

/-- The grouping key of the weekly aggregation:
`['Year', 'Week', 'Payer', 'Group_EM', 'Group_EM2', 'Benchmark_Key']`. -/
def weeklyKey (r : InvoiceRow) : Int × Int × String × String × String × String :=
  (r.year, r.week, r.payer, r.groupEM, r.groupEM2, r.benchmarkKey)

/-- The rows of one weekly group. -/
def weeklyGroup (t : List InvoiceRow) (k : Int × Int × String × String × String × String) :
    List InvoiceRow :=
  t.filter (fun r => weeklyKey r = k)

/-- The `Visit_Count` aggregate: `('Invoice_Number', 'nunique')`, the number
of distinct invoice numbers in the group (`weekly_model_generator_v5.py`
line 22, `generate_weekly_metrics.py` line 86). -/
def Visit_Count (g : List InvoiceRow) : Nat :=
  ((g.map (fun r => r.invoiceNumber)).dedup).length

/-- The `Group_Size` aggregate: `('Invoice_Number', 'count')`, the number of
detail rows in the group (`weekly_model_generator_v5.py` line 23). -/
def Group_Size (g : List InvoiceRow) : Nat := g.length

/- ===== Performance classifier (revenue_performance_model.py) ===== -/

/-- The `classify_performance` function of `revenue_performance_model.py`
lines 17 to 26, with NaN modelled as `none`. -/
def classify_performance (actual expected : Option ℚ) : String :=
  match actual, expected with
  | some a, some e =>
    if e = 0 then "No Data"
    else if (a - e) / e > 0.05 then "Over Performing"
    else if (a - e) / e < -0.05 then "Under Performing"
    else "Average Performance"
  | _, _ => "No Data"

/- ===== Diagnostic tags (invoice_benchmark_code_v6_updated.py Step 5) ===== -/

/-- The `Tag_Low_Payment` column of `invoice_benchmark_code_v6_updated.py`
line 98: the pandas comparison `payment < 0.9 * benchmark`, which is `False`
whenever the benchmark is NaN. -/
def Tag_Low_Payment (payment : ℚ) (benchmarkPayment : Option ℚ) : Bool :=
  match benchmarkPayment with
  | none => false
  | some b => decide (payment < 0.9 * b)

/- ===== Row validation (invoice_benchmark_code_v10_updated.py Steps 1 and 2) ===== -/

/-- A raw detail row as loaded from the spreadsheet: each required key cell
may be missing (NaN). -/
structure RawRow where
  invoiceNumber : Option String
  payer : Option String
  groupEM : Option String
  groupEM2 : Option String
  cptCode : Option String
  deriving DecidableEq

/-- One cell of `df_inv[key_cols].astype(str).apply(lambda x: x.str.strip())`
(`invoice_benchmark_code_v10_updated.py` line 16): pandas `astype(str)`
renders a NaN cell as the string "nan", so the result is never missing. -/
def astypeStrStrip (c : Option String) : Option String :=
  some ((c.getD "nan").trim)

/-- pandas `isna` on one cell of an object column. -/
def cellIsna (c : Option String) : Bool := c.isNone

/-- Step 1 of `invoice_benchmark_code_v10_updated.py`: stringify and strip
all five required key columns. -/
def normalizeKeys (r : RawRow) : RawRow where
  invoiceNumber := astypeStrStrip r.invoiceNumber
  payer := astypeStrStrip r.payer
  groupEM := astypeStrStrip r.groupEM
  groupEM2 := astypeStrStrip r.groupEM2
  cptCode := astypeStrStrip r.cptCode

/-- The `invalid_mask` of `invoice_benchmark_code_v10_updated.py` line 19:
`df_inv[key_cols].isna().any(axis=1)`, evaluated after Step 1 has already
replaced the key columns by strings. -/
def invalid_mask (r : RawRow) : Bool :=
  cellIsna r.invoiceNumber || cellIsna r.payer || cellIsna r.groupEM ||
    cellIsna r.groupEM2 || cellIsna r.cptCode

/-- The rows written to the validation report
(`invoice_benchmark_code_v10_updated.py` line 20). -/
def validationRows (t : List RawRow) : List RawRow :=
  (t.map normalizeKeys).filter (fun r => invalid_mask r)

/-- The rows kept for the rest of the pipeline
(`invoice_benchmark_code_v10_updated.py` line 21). -/
def keptRows (t : List RawRow) : List RawRow :=
  (t.map normalizeKeys).filter (fun r => !invalid_mask r)

/- ===== Forward fill (source_data_processor_v3.py line 88, invoice_benchmark_code_v6_updated.py line 31) ===== -/

/-- Worker for pandas `ffill` on one column, carrying the last value seen. -/
def ffillFrom (last : Option String) : List (Option String) → List (Option String)
  | [] => []
  | some v :: rest => some v :: ffillFrom (some v) rest
  | none :: rest => last :: ffillFrom last rest

/-- pandas `Series.ffill`: each missing cell is replaced by the nearest
preceding non-missing value, and stays missing when no such value exists.
This is `df["Invoice_Number"].ffill()` in `source_data_processor_v3.py`
line 88 and `fillna(method="ffill")` in `invoice_benchmark_code_v6_updated.py`
line 31. -/
def ffill (l : List (Option String)) : List (Option String) := ffillFrom none l

/-- The latest non-missing value of a list, starting from a carried value.
This is the value `ffill` propagates into each cell. -/
def latestFrom (acc : Option String) (l : List (Option String)) : Option String :=
  l.foldl (fun a c => match c with | some v => some v | none => a) acc

/-- The latest non-missing value of a prefix, starting from nothing. -/
def latestNonBlank (l : List (Option String)) : Option String :=
  latestFrom none l

/-- Step 1B plus Step 2 input of `invoice_benchmark_code_v6_updated.py`: a
table of (raw invoice cell, CPT code) pairs with the invoice column
forward-filled. -/
def fillInvoices (rows : List (Option String × String)) : List (Option String × String) :=
  (ffill (rows.map Prod.fst)).zip (rows.map Prod.snd)

/-- The `Invoice_CPT_Set` grouping of `invoice_benchmark_code_v6_updated.py`
lines 35 to 38, computed on the forward-filled invoice column: the sorted
deduplicated CPT codes of the rows attributed to `inv`. -/
def Invoice_CPT_Set (rows : List (Option String × String)) (inv : Option String) : List String :=
  sortedUnique (((fillInvoices rows).filter (fun p => p.fst = inv)).map Prod.snd)

/- ===== Percent export (weekly_model_generator_v5.py Step 8) ===== -/

/-- Rounding half to even, the rule `Series.round()` (numpy rounding)
applies. -/
def roundHalfEven (q : ℚ) : ℤ :=
  if q - ⌊q⌋ < 1/2 then ⌊q⌋
  else if (1 : ℚ)/2 < q - ⌊q⌋ then ⌊q⌋ + 1
  else if ⌊q⌋ % 2 = 0 then ⌊q⌋ else ⌊q⌋ + 1

/-- One cell of Step 8 of `weekly_model_generator_v5.py` lines 100 to 102:
`(col.astype(float).fillna(0) * 100).round().astype("Int64").astype(str) + "%"`. -/
def formatPercent (x : Option ℚ) : String :=
  toString (roundHalfEven ((x.getD 0) * 100)) ++ "%"

/-- The rate columns of one weekly output row, each possibly missing, in the
order `rate_cols` lists them. -/
structure WeeklyRates where
  zeroBalanceCollectionRate : Option ℚ
  collectionRate : Option ℚ
  denialPercent : Option ℚ
  nrvGapPercent : Option ℚ
  remainingChargesPercent : Option ℚ
  benchmarkZeroBalanceCollectionRate : Option ℚ
  benchmarkCollectionRate : Option ℚ
  revenueVariancePct : Option ℚ

/-- The `rate_cols` list of `weekly_model_generator_v5.py` lines 92 to 97, as
projections out of a weekly row. -/
def rate_cols : List (WeeklyRates → Option ℚ) :=
  [fun w => w.zeroBalanceCollectionRate,
   fun w => w.collectionRate,
   fun w => w.denialPercent,
   fun w => w.nrvGapPercent,
   fun w => w.remainingChargesPercent,
   fun w => w.benchmarkZeroBalanceCollectionRate,
   fun w => w.benchmarkCollectionRate,
   fun w => w.revenueVariancePct]

/-- Step 8 applied to one listed column of one weekly row. -/
def formatRateColumn (w : WeeklyRates) (col : WeeklyRates → Option ℚ) : String :=
  formatPercent (col w)

/- ===== Concrete tables used by counterexamples and witnesses ===== -/

/-- Two detail rows of one invoice that disagree on the payer column. -/
def mixedPayerTable : List DetailRow :=
  [⟨"I1", "Aetna", "New E/M Code", "Layer2", "99213"⟩,
   ⟨"I1", "Cigna", "New E/M Code", "Layer2", "71045"⟩]

/-- The synthetic invoice of the specification: two detail rows of one
invoice, codes 99213 and 71045 in that input order, shared payer and groups. -/
def specInvoiceTable : List DetailRow :=
  [⟨"I1", "Aetna", "New E/M Code", "Layer2", "99213"⟩,
   ⟨"I1", "Aetna", "New E/M Code", "Layer2", "71045"⟩]

/-- The specification example group: two invoices with one visit each and
actual rates 100 and 200. -/
def evenGroup : List GranularRow :=
  [⟨"K", 1, 0, some 100, none⟩, ⟨"K", 1, 0, some 200, none⟩]

/-- The specification example group with visits 1 and 9. -/
def skewedGroup : List GranularRow :=
  [⟨"K", 1, 0, some 100, none⟩, ⟨"K", 9, 0, some 200, none⟩]

/-- A group whose only row has zero visits. -/
def zeroVisitGroup : List GranularRow :=
  [⟨"Z", 0, 5, some 10, some 10⟩]

/- ===== Helper lemmas about the string order ===== -/

/-- Helper: `lexLe` is total. -/
theorem lexLe_total (a b : List Nat) : lexLe a b = true ∨ lexLe b a = true := by
  induction a generalizing b with
  | nil => left; rfl
  | cons x xs ih =>
    cases b with
    | nil => right; rfl
    | cons y ys =>
      rcases Nat.lt_trichotomy x y with h | h | h
      · left; simp [lexLe, h]
      · subst h
        rcases ih ys with h2 | h2
        · left; simp [lexLe, h2]
        · right; simp [lexLe, h2]
      · right; simp [lexLe, h]

/-- Helper: `lexLe` is transitive. -/
theorem lexLe_trans {a b c : List Nat} (h1 : lexLe a b = true) (h2 : lexLe b c = true) :
    lexLe a c = true := by
  induction a generalizing b c with
  | nil => rfl
  | cons x xs ih =>
    cases b with
    | nil => simp [lexLe] at h1
    | cons y ys =>
      cases c with
      | nil => simp [lexLe] at h2
      | cons z zs =>
        simp only [lexLe] at h1 h2 ⊢
        by_cases hxy : x < y
        · have hyz : y ≤ z := by
            by_contra hc
            push_neg at hc
            simp [Nat.not_lt.mpr (Nat.le_of_lt hc), hc] at h2
          simp [Nat.lt_of_lt_of_le hxy hyz]
        · by_cases hyx : y < x
          · simp [Nat.not_lt.mpr (Nat.le_of_lt hyx), hyx] at h1
          · have hxy2 : x = y := Nat.le_antisymm (Nat.not_lt.mp hyx) (Nat.not_lt.mp hxy)
            subst hxy2
            simp only [if_neg hxy, if_neg hyx] at h1
            by_cases hyz : x < z
            · simp [hyz]
            · by_cases hzy : z < x
              · simp [Nat.not_lt.mpr (Nat.le_of_lt hzy), hzy] at h2
              · simp only [if_neg hyz, if_neg hzy] at h2 ⊢
                exact ih h1 h2

/-- Helper: `lexLe` is antisymmetric. -/
theorem lexLe_antisymm {a b : List Nat} (h1 : lexLe a b = true) (h2 : lexLe b a = true) :
    a = b := by
  induction a generalizing b with
  | nil => cases b with
    | nil => rfl
    | cons y ys => simp [lexLe] at h2
  | cons x xs ih =>
    cases b with
    | nil => simp [lexLe] at h1
    | cons y ys =>
      simp only [lexLe] at h1 h2
      by_cases hxy : x < y
      · simp [Nat.not_lt.mpr (Nat.le_of_lt hxy), hxy] at h2
      · by_cases hyx : y < x
        · simp [Nat.not_lt.mpr (Nat.le_of_lt hyx), hyx] at h1
        · have hxy2 : x = y := Nat.le_antisymm (Nat.not_lt.mp hyx) (Nat.not_lt.mp hxy)
          subst hxy2
          simp only [if_neg hxy, if_neg hyx] at h1 h2
          exact congrArg (x :: ·) (ih h1 h2)

/-- Helper: a string is determined by its code points. -/
theorem strCodes_inj {s t : String} (h : strCodes s = strCodes t) : s = t := by
  have hinj : Function.Injective Char.toNat := fun a b hab => by
    rw [← Char.ofNat_toNat a, ← Char.ofNat_toNat b, hab]
  have hd : s.data = t.data := List.map_injective_iff.mpr hinj h
  cases s
  cases t
  exact congrArg String.mk hd

/-- Helper: `sortedUnique` only depends on the input up to permutation. -/
theorem sortedUnique_perm_inv (l1 l2 : List String) (h : l1.Perm l2) :
    sortedUnique l1 = sortedUnique l2 := by
  haveI : IsTotal String (fun a b => strLe a b = true) := ⟨fun a b => lexLe_total _ _⟩
  haveI : IsTrans String (fun a b => strLe a b = true) := ⟨fun a b c => lexLe_trans⟩
  haveI : IsAntisymm String (fun a b => strLe a b = true) :=
    ⟨fun a b h1 h2 => strCodes_inj (lexLe_antisymm h1 h2)⟩
  exact List.eq_of_perm_of_sorted
    ((List.perm_insertionSort _ _).trans ((h.dedup).trans (List.perm_insertionSort _ _).symm))
    (List.sorted_insertionSort _ _)
    (List.sorted_insertionSort _ _)

/-- Helper: the pipe-join of the four key parts written out with appends. -/
theorem Benchmark_Key_eq_join (t : List DetailRow) (r : DetailRow) :
    Benchmark_Key t r =
      r.payer ++ "|" ++ r.groupEM ++ "|" ++ r.groupEM2 ++ "|" ++ CPT_List_Str t r.invoiceNumber := by
  simp [Benchmark_Key, String.intercalate, String.intercalate.go, String.append_assoc]

/-- C1 (amended): in `invoice_benchmark_code_v10_updated.py`, each detail
row's `Benchmark_Key` is the pipe-join of the row's payer, procedure group,
secondary group, and the Python list rendering of the sorted deduplicated set
of CPT codes of the row's invoice; two rows of one invoice that also agree on
payer, group and secondary group receive the same key; and the key is
unchanged under any permutation of the input rows. -/
theorem C1_benchmark_key_construction :
    (∀ (t : List DetailRow) (r : DetailRow),
      Benchmark_Key t r = r.payer ++ "|" ++ r.groupEM ++ "|" ++ r.groupEM2 ++ "|" ++
        pyStrList (sortedUnique (invoiceCpts t r.invoiceNumber)))
    ∧ (∀ (t : List DetailRow) (r s : DetailRow), r.invoiceNumber = s.invoiceNumber →
        r.payer = s.payer → r.groupEM = s.groupEM → r.groupEM2 = s.groupEM2 →
        Benchmark_Key t r = Benchmark_Key t s)
    ∧ (∀ (t1 t2 : List DetailRow) (r : DetailRow), t1.Perm t2 →
        Benchmark_Key t1 r = Benchmark_Key t2 r) := by
  refine ⟨?_, ?_, ?_⟩
  · intro t r
    exact Benchmark_Key_eq_join t r
  · intro t r s h1 h2 h3 h4
    rw [Benchmark_Key_eq_join, Benchmark_Key_eq_join, h1, h2, h3, h4]
  · intro t1 t2 r hp
    have hc : CPT_List_Str t1 r.invoiceNumber = CPT_List_Str t2 r.invoiceNumber := by
      unfold CPT_List_Str CPT_List invoiceCpts
      rw [sortedUnique_perm_inv _ _ ((hp.filter _).map _)]
    rw [Benchmark_Key_eq_join, Benchmark_Key_eq_join, hc]

/-- C1 counterexample: the two rows of `mixedPayerTable` belong to the same
invoice I1, yet their benchmark keys differ, because the key embeds the
row-level payer and the rows disagree on it.  The claim that every row of the
same invoice receives an identical `Benchmark_Key` is therefore false as
stated. -/
theorem C1_counterexample :
    mixedPayerTable.get? 0 = some ⟨"I1", "Aetna", "New E/M Code", "Layer2", "99213"⟩
    ∧ mixedPayerTable.get? 1 = some ⟨"I1", "Cigna", "New E/M Code", "Layer2", "71045"⟩
    ∧ Benchmark_Key mixedPayerTable ⟨"I1", "Aetna", "New E/M Code", "Layer2", "99213"⟩ ≠
      Benchmark_Key mixedPayerTable ⟨"I1", "Cigna", "New E/M Code", "Layer2", "71045"⟩ := by
  refine ⟨rfl, rfl, ?_⟩
  decide

/-- C1 witness: on the synthetic invoice of the specification the two rows
agree on all key parts, so the amended theorem yields one shared key, and
that key is the expected string with the codes sorted ascending. -/
theorem C1_witness :
    Benchmark_Key specInvoiceTable ⟨"I1", "Aetna", "New E/M Code", "Layer2", "99213"⟩ =
      Benchmark_Key specInvoiceTable ⟨"I1", "Aetna", "New E/M Code", "Layer2", "71045"⟩
    ∧ Benchmark_Key specInvoiceTable ⟨"I1", "Aetna", "New E/M Code", "Layer2", "99213"⟩ =
      "Aetna|New E/M Code|Layer2|[" ++ pyQuote ++ "71045" ++ pyQuote ++ ", " ++
        pyQuote ++ "99213" ++ pyQuote ++ "]" := by
  constructor
  · exact C1_benchmark_key_construction.2.1 specInvoiceTable _ _ rfl rfl rfl rfl
  · decide

/- ===== C2 and C3: visit-weighted rates ===== -/

/-- C2: in the by-key roll-up of `CPT tracing code.py`, any group with
positive total visits gets as weighted actual rate the visit-weighted
average: the nansum of rate times visits over the group, divided by the
total visit count of the group. -/
theorem C2_weighted_actual_rate (t : List GranularRow) (k : String)
    (hpos : 0 < Total_Visits (groupRowsByKey t k)) :
    Weighted_Actual_Rate_per_Visit (groupRowsByKey t k) =
      some ((((groupRowsByKey t k).map (fun r => (r.actualRate.getD 0) * r.visitCount)).sum) /
        (((groupRowsByKey t k).map (fun r => r.visitCount)).sum)) := by
  unfold Weighted_Actual_Rate_per_Visit
  rw [if_neg (ne_of_gt hpos)]
  rfl

/-- C2 witness: the two groups of the specification example.  Two invoices
with one visit each and rates 100 and 200 average to 150; with visits 1 and
9 the volume-weighted average is 190, not the naive row mean 150. -/
theorem C2_witness :
    Weighted_Actual_Rate_per_Visit (groupRowsByKey evenGroup "K") = some 150
    ∧ Weighted_Actual_Rate_per_Visit (groupRowsByKey skewedGroup "K") = some 190
    ∧ (190 : ℚ) ≠ 150 := by
  have hg1 : groupRowsByKey evenGroup "K" = evenGroup := by
    simp [groupRowsByKey, evenGroup]
  have hg2 : groupRowsByKey skewedGroup "K" = skewedGroup := by
    simp [groupRowsByKey, skewedGroup]
  have hpos1 : 0 < Total_Visits (groupRowsByKey evenGroup "K") := by
    rw [hg1]; norm_num [Total_Visits, evenGroup]
  have hpos2 : 0 < Total_Visits (groupRowsByKey skewedGroup "K") := by
    rw [hg2]; norm_num [Total_Visits, skewedGroup]
  refine ⟨?_, ?_, by norm_num⟩
  · have h := C2_weighted_actual_rate evenGroup "K" hpos1
    have e1 : ((((groupRowsByKey evenGroup "K").map
          (fun r => (r.actualRate.getD 0) * r.visitCount)).sum) /
        (((groupRowsByKey evenGroup "K").map (fun r => r.visitCount)).sum)) = 150 := by
      rw [hg1]; norm_num [evenGroup]
    exact h.trans (congrArg some e1)
  · have h := C2_weighted_actual_rate skewedGroup "K" hpos2
    have e2 : ((((groupRowsByKey skewedGroup "K").map
          (fun r => (r.actualRate.getD 0) * r.visitCount)).sum) /
        (((groupRowsByKey skewedGroup "K").map (fun r => r.visitCount)).sum)) = 190 := by
      rw [hg2]; norm_num [skewedGroup]
    exact h.trans (congrArg some e2)

/-- C3: in the by-key roll-up of `CPT tracing code.py`, a group whose total
visit count is zero gets missing (NaN) weighted actual and expected rates:
the guarded division is never performed, and the output is in particular not
zero. -/
theorem C3_zero_visits_missing (t : List GranularRow) (k : String)
    (h : Total_Visits (groupRowsByKey t k) = 0) :
    Weighted_Actual_Rate_per_Visit (groupRowsByKey t k) = none
    ∧ Weighted_Expected_Rate_per_Visit (groupRowsByKey t k) = none
    ∧ Weighted_Actual_Rate_per_Visit (groupRowsByKey t k) ≠ some 0 := by
  have h1 : Weighted_Actual_Rate_per_Visit (groupRowsByKey t k) = none := by
    unfold Weighted_Actual_Rate_per_Visit
    rw [if_pos h]
  have h2 : Weighted_Expected_Rate_per_Visit (groupRowsByKey t k) = none := by
    unfold Weighted_Expected_Rate_per_Visit
    rw [if_pos h]
  refine ⟨h1, h2, ?_⟩
  rw [h1]
  exact fun hc => Option.noConfusion hc

/-- C3 witness: the concrete group whose single row has zero visits. -/
theorem C3_witness :
    Weighted_Actual_Rate_per_Visit (groupRowsByKey zeroVisitGroup "Z") = none
    ∧ Weighted_Expected_Rate_per_Visit (groupRowsByKey zeroVisitGroup "Z") = none
    ∧ Weighted_Actual_Rate_per_Visit (groupRowsByKey zeroVisitGroup "Z") ≠ some 0 := by
  have hg : groupRowsByKey zeroVisitGroup "Z" = zeroVisitGroup := by
    simp [groupRowsByKey, zeroVisitGroup]
  have hz : Total_Visits (groupRowsByKey zeroVisitGroup "Z") = 0 := by
    rw [hg]; norm_num [Total_Visits, zeroVisitGroup]
  exact C3_zero_visits_missing zeroVisitGroup "Z" hz

/- ===== C4: percent variance against a zero expected amount ===== -/

/-- C4: in both `weekly_model_generator_v5.py` (Step 5) and
`invoice_benchmark_code_v10_updated.py` (Step 6), the percent variance is
the dollar variance divided by the expected amount, except that a zero
expected amount yields a missing percent variance while the dollar variance
is still actual minus expected, hence the actual amount itself. -/
theorem C4_percent_variance (a e : ℚ) :
    (e = 0 → Revenue_Variance_Pct a e = none
      ∧ Invoice_Payment_Pct_Diff_vs_Benchmark a e = none
      ∧ Revenue_Variance a e = a
      ∧ Invoice_Payment_Diff_vs_Benchmark a e = a)
    ∧ (e ≠ 0 → Revenue_Variance_Pct a e = some (Revenue_Variance a e / e)
      ∧ Invoice_Payment_Pct_Diff_vs_Benchmark a e =
          some (Invoice_Payment_Diff_vs_Benchmark a e / e)) := by
  constructor
  · intro h
    subst h
    refine ⟨?_, ?_, ?_, ?_⟩
    · unfold Revenue_Variance_Pct
      rw [if_pos rfl]
    · unfold Invoice_Payment_Pct_Diff_vs_Benchmark
      rw [if_pos rfl]
    · unfold Revenue_Variance
      ring
    · unfold Invoice_Payment_Diff_vs_Benchmark
      ring
  · intro h
    constructor
    · unfold Revenue_Variance_Pct
      rw [if_neg h]
    · unfold Invoice_Payment_Pct_Diff_vs_Benchmark
      rw [if_neg h]

/-- C4 witness: with expected amount 0 and actual 7 the percent variance is
missing and the dollar variance equals 7; with expected 2 and actual 9 the
percent variance is the quotient of the variance by 2. -/
theorem C4_witness :
    Revenue_Variance_Pct 7 0 = none
    ∧ Revenue_Variance 7 0 = 7
    ∧ Invoice_Payment_Pct_Diff_vs_Benchmark 7 0 = none
    ∧ Revenue_Variance_Pct 9 2 = some ((9 - 2) / 2) := by
  refine ⟨((C4_percent_variance 7 0).1 rfl).1,
    ((C4_percent_variance 7 0).1 rfl).2.2.1,
    ((C4_percent_variance 7 0).1 rfl).2.1, ?_⟩
  exact ((C4_percent_variance 9 2).2 (by norm_num)).1

/- ===== C5: visit count is distinct invoices, not rows ===== -/

/-- C5: the `Visit_Count` of every weekly group equals the number of distinct
invoice numbers among the rows of the group; adding one more detail row of an
invoice already present leaves `Visit_Count` unchanged while `Group_Size`
grows by one, so an invoice contributing several procedure lines counts
exactly once. -/
theorem C5_visit_count_distinct_invoices :
    (∀ (t : List InvoiceRow) (k : Int × Int × String × String × String × String),
      Visit_Count (weeklyGroup t k) =
        ((weeklyGroup t k).map (fun r => r.invoiceNumber)).toFinset.card)
    ∧ (∀ (r : InvoiceRow) (g : List InvoiceRow),
        r.invoiceNumber ∈ g.map (fun x => x.invoiceNumber) →
        Visit_Count (r :: g) = Visit_Count g ∧ Group_Size (r :: g) = Group_Size g + 1) := by
  constructor
  · intro t k
    exact (List.card_toFinset _).symm
  · intro r g h
    constructor
    · unfold Visit_Count
      rw [List.map_cons, List.dedup_cons_of_mem h]
    · rfl

/-- One row of a weekly group, used to instantiate the C5 theorem. -/
def dupInvoiceRow : InvoiceRow := ⟨2024, 1, "Aetna", "G1", "G2", "K", "I1"⟩

/-- C5 witness: duplicating the detail row of invoice I1 leaves the visit
count at one while the row count becomes two. -/
theorem C5_witness :
    Visit_Count (dupInvoiceRow :: [dupInvoiceRow]) = Visit_Count [dupInvoiceRow]
    ∧ Group_Size (dupInvoiceRow :: [dupInvoiceRow]) = Group_Size [dupInvoiceRow] + 1 :=
  C5_visit_count_distinct_invoices.2 dupInvoiceRow [dupInvoiceRow] (by decide)

/- ===== C6: the performance classifier ===== -/

/-- C6: `classify_performance` returns exactly one of four labels: No Data
when either input is missing or the expected value is zero; otherwise Over
Performing when the relative difference exceeds five percent, Under
Performing when it is below minus five percent, and Average Performance in
between, the boundaries plus and minus five percent included. -/
theorem C6_classify_performance (actual expected : Option ℚ) :
    (classify_performance actual expected ∈
      (["No Data", "Over Performing", "Under Performing", "Average Performance"] : List String))
    ∧ ((actual = none ∨ expected = none ∨ expected = some 0) →
        classify_performance actual expected = "No Data")
    ∧ (∀ a e : ℚ, actual = some a → expected = some e → e ≠ 0 →
        (((a - e) / e > 0.05) → classify_performance actual expected = "Over Performing")
        ∧ (((a - e) / e < -0.05) → classify_performance actual expected = "Under Performing")
        ∧ ((-0.05 ≤ (a - e) / e ∧ (a - e) / e ≤ 0.05) →
            classify_performance actual expected = "Average Performance")) := by
  refine ⟨?_, ?_, ?_⟩
  · cases actual with
    | none => simp [classify_performance]
    | some a =>
      cases expected with
      | none => simp [classify_performance]
      | some e =>
        by_cases h0 : e = 0
        · simp [classify_performance, h0]
        · by_cases h1 : (a - e) / e > 0.05
          · simp [classify_performance, h0, h1]
          · by_cases h2 : (a - e) / e < -0.05
            · simp [classify_performance, h0, h1, h2]
            · simp [classify_performance, h0, h1, h2]
  · rintro (h | h | h) <;> subst h
    · rfl
    · cases actual <;> rfl
    · cases actual with
      | none => rfl
      | some a => simp [classify_performance]
  · rintro a e rfl rfl hne
    refine ⟨?_, ?_, ?_⟩
    · intro h1
      simp [classify_performance, hne, h1]
    · intro h2
      have h1 : ¬ ((a - e) / e > 0.05) := by
        intro hc
        have : (-0.05 : ℚ) < 0.05 := by norm_num
        linarith
      simp [classify_performance, hne, h1, h2]
    · rintro ⟨hl, hr⟩
      have h1 : ¬ ((a - e) / e > 0.05) := not_lt.mpr hr
      have h2 : ¬ ((a - e) / e < -0.05) := not_lt.mpr hl
      simp [classify_performance, hne, h1, h2]

/-- C6 witness: a relative difference of exactly five percent labels Average
Performance, a missing actual labels No Data, and twenty percent above or
below the expected value labels Over and Under Performing. -/
theorem C6_witness :
    classify_performance (some 105) (some 100) = "Average Performance"
    ∧ classify_performance none (some 100) = "No Data"
    ∧ classify_performance (some 120) (some 100) = "Over Performing"
    ∧ classify_performance (some 80) (some 100) = "Under Performing" := by
  refine ⟨?_, ?_, ?_, ?_⟩
  · exact ((C6_classify_performance (some 105) (some 100)).2.2 105 100 rfl rfl
      (by norm_num)).2.2 ⟨by norm_num, by norm_num⟩
  · exact (C6_classify_performance none (some 100)).2.1 (Or.inl rfl)
  · exact ((C6_classify_performance (some 120) (some 100)).2.2 120 100 rfl rfl
      (by norm_num)).1 (by norm_num)
  · exact ((C6_classify_performance (some 80) (some 100)).2.2 80 100 rfl rfl
      (by norm_num)).2.1 (by norm_num)

/- ===== C7: the low-payment tag ===== -/

/-- C7: for a row with a defined benchmark payment, `Tag_Low_Payment` is true
exactly when the actual payment is strictly below nine tenths of the
benchmark payment. -/
theorem C7_tag_low_payment (p : ℚ) (bm : Option ℚ) (b : ℚ) (h : bm = some b) :
    Tag_Low_Payment p bm = true ↔ p < 0.9 * b := by
  subst h
  simp [Tag_Low_Payment]

/-- C7 witness: payment 80 against benchmark 100 is tagged, payment 95 is
not. -/
theorem C7_witness :
    Tag_Low_Payment 80 (some 100) = true ∧ Tag_Low_Payment 95 (some 100) = false := by
  constructor
  · exact (C7_tag_low_payment 80 (some 100) 100 rfl).mpr (by norm_num)
  · have h := C7_tag_low_payment 95 (some 100) 100 rfl
    have hn : ¬ ((95 : ℚ) < 0.9 * 100) := by norm_num
    cases htag : Tag_Low_Payment 95 (some 100) with
    | false => rfl
    | true => exact absurd (h.mp htag) hn

/- ===== C8: the validation step of invoice_benchmark_code_v10_updated.py ===== -/

/-- Helper: after Step 1 every key cell is a string, so the row-level
`isna` mask of Step 2 is false on every normalized row. -/
theorem invalid_mask_normalized_false (r : RawRow) :
    invalid_mask (normalizeKeys r) = false := rfl

/-- C8 (code bug): Step 1 of `invoice_benchmark_code_v10_updated.py` applies
`astype(str)` to the key columns before Step 2 evaluates `isna` on them, so a
missing key cell has already become the string "nan" and the invalid mask is
false on every row.  Consequently the validation report is empty and every
row is kept for every input table; in particular a row with a missing payer
is kept, not quarantined, contradicting the quarantine claim. -/
theorem C8_validation_never_quarantines :
    (∀ t : List RawRow, validationRows t = [] ∧ keptRows t = t.map normalizeKeys)
    ∧ validationRows [⟨some "I1", none, some "G1", some "G2", some "99213"⟩] = []
    ∧ keptRows [⟨some "I1", none, some "G1", some "G2", some "99213"⟩] =
        [normalizeKeys ⟨some "I1", none, some "G1", some "G2", some "99213"⟩] := by
  have hall : ∀ t : List RawRow, validationRows t = [] ∧ keptRows t = t.map normalizeKeys := by
    intro t
    constructor
    · unfold validationRows
      apply List.filter_eq_nil_iff.mpr
      intro r hr
      rcases List.mem_map.mp hr with ⟨x, _, rfl⟩
      simp [invalid_mask_normalized_false]
    · unfold keptRows
      apply List.filter_eq_self.mpr
      intro r hr
      rcases List.mem_map.mp hr with ⟨x, _, rfl⟩
      simp [invalid_mask_normalized_false]
  refine ⟨hall, (hall _).1, ?_⟩
  rw [(hall _).2]
  rfl

/- ===== C9: forward fill of the invoice number ===== -/

/-- Helper: each output cell of the forward-fill worker is the latest
non-missing value of the corresponding input prefix, seeded with the carried
value. -/
theorem ffillFrom_get? (last : Option String) (l : List (Option String)) (i : Nat)
    (h : i < l.length) :
    (ffillFrom last l).get? i = some (latestFrom last (l.take (i + 1))) := by
  induction l generalizing last i with
  | nil => simp at h
  | cons c rest ih =>
    cases c with
    | some v =>
      cases i with
      | zero => rfl
      | succ i => exact ih (some v) i (Nat.lt_of_succ_lt_succ h)
    | none =>
      cases i with
      | zero => rfl
      | succ i => exact ih last i (Nat.lt_of_succ_lt_succ h)

/-- Helper: once a value is carried, the forward-fill value never returns to
missing. -/
theorem latestFrom_some_ne_none (v : String) (l : List (Option String)) :
    latestFrom (some v) l ≠ none := by
  induction l generalizing v with
  | nil => exact fun hc => Option.noConfusion hc
  | cons c rest ih =>
    cases c with
    | some u => exact ih u
    | none => exact ih v

/-- Helper: a prefix containing a non-missing cell has a non-missing latest
value, whatever the carried seed. -/
theorem latestFrom_ne_none_of_mem {v : String} {l : List (Option String)}
    (h : some v ∈ l) (acc : Option String) : latestFrom acc l ≠ none := by
  induction l generalizing acc with
  | nil => simp at h
  | cons c rest ih =>
    rcases List.mem_cons.mp h with hv | hv
    · subst hv
      exact latestFrom_some_ne_none v rest
    · cases c with
      | some u => exact latestFrom_some_ne_none u rest
      | none => exact ih hv acc

/-- C9 (amended): the normalization scripts forward-fill the invoice-number
column before grouping: each cell of the filled column is the nearest
preceding non-blank value in load order; a cell is non-missing after the
fill whenever some cell at or before it was non-blank (so only rows before
the first non-blank invoice cell can stay null); and the per-invoice CPT-set
grouping of `invoice_benchmark_code_v6_updated.py` operates on the filled
column, attributing a blank-invoice row to the preceding invoice. -/
theorem C9_forward_fill :
    (∀ (l : List (Option String)) (i : Nat), i < l.length →
      (ffill l).get? i = some (latestNonBlank (l.take (i + 1))))
    ∧ (∀ (l : List (Option String)) (i j : Nat) (v : String), j ≤ i → i < l.length →
        l.get? j = some (some v) → (ffill l).get? i ≠ some none)
    ∧ (∀ c1 c2 : String,
        Invoice_CPT_Set [(some "I1", c1), (none, c2)] (some "I1") = sortedUnique [c1, c2]) := by
  refine ⟨?_, ?_, ?_⟩
  · intro l i h
    exact ffillFrom_get? none l i h
  · intro l i j v hji h hj
    unfold ffill
    rw [ffillFrom_get? none l i h]
    intro hc
    have hmem : some v ∈ l.take (i + 1) := by
      have ht : (l.take (i + 1)).get? j = some (some v) := by
        rw [List.get?_take (Nat.lt_succ_of_le hji)]
        exact hj
      exact List.get?_mem ht
    exact latestFrom_ne_none_of_mem hmem none (Option.some.inj hc)
  · intro c1 c2
    rfl

/-- C9 counterexample: a table whose first invoice cell is blank keeps a null
invoice number after normalization, because forward fill has no preceding
value to draw from.  The claim that no detail row has a null invoice number
after normalization is therefore false as stated. -/
theorem C9_counterexample :
    ffill [none, some "1001"] = [none, some "1001"]
    ∧ (ffill [none, some "1001"]).get? 0 = some none := ⟨rfl, rfl⟩

/-- C9 witness: with a non-blank first cell, the blank second cell is filled
with the preceding invoice number and nothing stays missing. -/
theorem C9_witness :
    (ffill [some "1001", none]).get? 1 = some (latestNonBlank ([some "1001", none].take 2))
    ∧ (ffill [some "1001", none]).get? 1 ≠ some none
    ∧ Invoice_CPT_Set [(some "I1", "99213"), (none, "71045")] (some "I1") =
        sortedUnique ["99213", "71045"] := by
  refine ⟨?_, ?_, ?_⟩
  · exact C9_forward_fill.1 [some "1001", none] 1 (by decide)
  · exact C9_forward_fill.2.1 [some "1001", none] 1 0 "1001" (by decide) (by decide) rfl
  · exact C9_forward_fill.2.2 "99213" "71045"

/- ===== C10: the percent export of weekly_model_generator_v5.py Step 8 ===== -/

/-- Helper: zero rounds to the integer zero. -/
theorem roundHalfEven_zero : roundHalfEven ((0 : ℚ) * 100) = 0 := by
  norm_num [roundHalfEven]

/-- C10: every listed rate column of the weekly export is rendered as a
rounded integer-percent string ending in a percent sign; a missing value in
those columns is replaced by zero before formatting and is rendered as the
string 0 percent, so in the exported file a missing rate is indistinguishable
from a true zero rate. -/
theorem C10_rate_export (w : WeeklyRates) (col : WeeklyRates → Option ℚ)
    (hmem : col ∈ rate_cols) :
    (∃ n : ℤ, formatRateColumn w col = toString n ++ "%")
    ∧ (col w = none → formatRateColumn w col = "0%")
    ∧ formatPercent none = formatPercent (some 0) := by
  refine ⟨⟨roundHalfEven (((col w).getD 0) * 100), rfl⟩, ?_, rfl⟩
  intro h
  unfold formatRateColumn formatPercent
  rw [h]
  show toString (roundHalfEven ((0 : ℚ) * 100)) ++ "%" = "0%"
  rw [roundHalfEven_zero]
  rfl

/-- A weekly output row all of whose rate columns are missing. -/
def missingRatesRow : WeeklyRates := ⟨none, none, none, none, none, none, none, none⟩

/-- C10 witness: the revenue-variance percent column of a row with no rate
data exports as the string 0 percent, exactly like a true zero. -/
theorem C10_witness :
    formatRateColumn missingRatesRow (fun w => w.revenueVariancePct) = "0%"
    ∧ formatPercent none = formatPercent (some 0) := by
  have h := C10_rate_export missingRatesRow (fun w => w.revenueVariancePct)
    (by simp [rate_cols])
  exact ⟨h.2.1 rfl, h.2.2⟩
